import Mathlib

/-!
Verification development for the e-commerce funnel dashboard's aggregation
engine (`data_processor.py`).

Embedding conventions:
* a pandas DataFrame of clickstream events is a `List Event`; result
  DataFrames are lists of row records, one structure per result schema;
* `Series.nunique()` is the length of `List.dedup`; `Series.unique()`
  (order of first appearance) is `uniqueFirst`;
* rates, which Python computes as IEEE floats, are modelled as exact
  rationals; the percentage *strings* the code formats from them
  (`f"{rate:.1%}"`) are presentation of those numeric values and are not
  modelled — each row carries the numeric value being formatted;
* `pd.DataFrame({col1: xs, col2: ys, ...})` with equal-length columns is
  the list whose `i`-th row collects the `i`-th entry of every column.
-/

/-- One clickstream interaction event, one row of the clickstream DataFrame.
The open JSON `metadata` column is omitted: no aggregation function reads it.
Timestamps are abstract instants, modelled as integers with the usual order. -/
structure Event where
  event_id : String
  session_id : String
  user_id : String
  timestamp : Int
  page : String
  action : String
  device : String
  traffic_source : String
  deriving DecidableEq, Repr

/-- Value of the `Drop_Rate_to_Next` column of the funnel DataFrame: either
the `'N/A'` placeholder string, or a numeric drop rate (the rational value
that the code formats to a percentage string). -/
inductive DropRate where
  | na : DropRate
  | rate : ℚ → DropRate
  deriving DecidableEq, Repr

/-- One row of the funnel analysis DataFrame built by
`generate_funnel_analysis` (columns Stage, Sessions,
Conversion_Rate_from_Start, Drop_Rate_to_Next). -/
structure FunnelRow where
  stage : String
  sessions : Nat
  conversion_rate_from_start : ℚ
  drop_rate_to_next : DropRate
  deriving DecidableEq, Repr

instance : Inhabited FunnelRow := ⟨⟨"", 0, 0, DropRate.na⟩⟩

/-- One row of the bottleneck analysis DataFrame built by
`generate_bottleneck_analysis` (columns Transition, Sessions_Lost,
Drop_Rate_Numeric, Severity; the formatted Drop_Rate string column is
presentation of `drop_rate`). `sessions_lost` is a Python int and can be
negative, hence `ℤ`. -/
structure BottleneckRow where
  transition : String
  sessions_lost : ℤ
  drop_rate : ℚ
  severity : String
  deriving DecidableEq, Repr

instance : Inhabited BottleneckRow := ⟨⟨"", 0, 0, ""⟩⟩

/-- One row of a segment analysis DataFrame (`generate_device_analysis` /
`generate_traffic_analysis`). `key` is the raw partition value; the code's
display label (`device.capitalize()`, `source.replace('_',' ').title()`)
is presentation formatting of this value and is not modelled. -/
structure SegmentRow where
  key : String
  total_sessions : Nat
  conversions : Nat
  conversion_rate : ℚ
  deriving DecidableEq, Repr

instance : Inhabited SegmentRow := ⟨⟨"", 0, 0, 0⟩⟩

/-- FUNNEL_STAGES from data_processor.py: the ordered (page, action) pairs. -/
def FUNNEL_STAGES : List (String × String) :=
  [("homepage", "page_view"),
   ("category_page", "page_view"),
   ("product_page", "page_view"),
   ("product_page", "add_to_cart"),
   ("cart_page", "page_view"),
   ("checkout_page", "page_view"),
   ("payment_page", "page_view"),
   ("payment_page", "purchase")]

/-- FUNNEL_LABELS from data_processor.py. -/
def FUNNEL_LABELS : List String :=
  ["Homepage Visit",
   "Category Page Visit",
   "Product Page Visit",
   "Add to Cart",
   "Cart View",
   "Checkout",
   "Payment",
   "Purchase"]

/-- Number of distinct values in a column, pandas `Series.nunique()`. -/
def nunique (l : List String) : Nat := l.dedup.length

/-- The time filter of `generate_funnel_analysis`:
`df[(df['timestamp'] >= start_date) & (df['timestamp'] <= end_date)]`.
Note both comparisons are inclusive in the source. -/
def applyTimeFilter (time_filter : Option (Int × Int)) (df : List Event) : List Event :=
  match time_filter with
  | none => df
  | some (start_date, end_date) =>
      df.filter (fun e => start_date ≤ e.timestamp && e.timestamp ≤ end_date)

/-- `unique_sessions = df['session_id'].nunique()`. -/
def totalSessions (df : List Event) : Nat :=
  nunique (df.map (fun e => e.session_id))

/-- Per-stage session count:
`df[(df['page'] == page) & (df['action'] == action)]['session_id'].nunique()`. -/
def countStage (df : List Event) (page action : String) : Nat :=
  nunique ((df.filter (fun e => e.page == page && e.action == action)).map
    (fun e => e.session_id))

/-- The `funnel_counts` list: one `countStage` per stage, in stage order. -/
def funnelCounts (stages : List (String × String)) (df : List Event) : List Nat :=
  stages.map (fun pa => countStage df pa.1 pa.2)

/-- The `conversion_rates` list:
`[count / unique_sessions if unique_sessions > 0 else 0 for count in funnel_counts]`. -/
def convRates (unique_sessions : Nat) (funnel_counts : List Nat) : List ℚ :=
  funnel_counts.map (fun (c : Nat) =>
    if 0 < unique_sessions then (c : ℚ) / (unique_sessions : ℚ) else 0)

/-- The `drop_rates` list, exactly as the source builds it: first
`drop_rates.append('N/A')`, then for each `i in range(len(funnel_counts)-1)`
the rate `(funnel_counts[i] - funnel_counts[i+1]) / funnel_counts[i]`
(0 when `funnel_counts[i]` is 0).  So the entry at index `i + 1` of this
list is the rate of the transition from stage `i` to stage `i + 1`. -/
def dropRatesList (funnel_counts : List Nat) : List DropRate :=
  DropRate.na ::
    (List.range (funnel_counts.length - 1)).map (fun i =>
      if 0 < funnel_counts.getD i 0 then
        DropRate.rate
          (((funnel_counts.getD i 0 : ℚ) - (funnel_counts.getD (i + 1) 0 : ℚ)) /
            (funnel_counts.getD i 0 : ℚ))
      else DropRate.rate 0)

/-- Body of `generate_funnel_analysis`, generic over the stage/label lists it
reads (the source reads the module constants `FUNNEL_STAGES` /
`FUNNEL_LABELS`; the spec's `compute_funnel` takes the stage list as an
argument).  The `pd.DataFrame` constructor pairs the four equal-length
columns row by row; callers pass parallel lists of equal length. -/
def funnelAnalysisWith (stages : List (String × String)) (labels : List String)
    (time_filter : Option (Int × Int)) (df : List Event) : List FunnelRow :=
  if df = [] then []
  else
    let fdf := applyTimeFilter time_filter df
    let unique_sessions := totalSessions fdf
    let funnel_counts := funnelCounts stages fdf
    let conversion_rates := convRates unique_sessions funnel_counts
    let drop_rates := dropRatesList funnel_counts
    (List.range stages.length).map (fun i =>
      { stage := labels.getD i "",
        sessions := funnel_counts.getD i 0,
        conversion_rate_from_start := conversion_rates.getD i 0,
        drop_rate_to_next := drop_rates.getD i DropRate.na })

/-- `generate_funnel_analysis(df, time_filter)` from data_processor.py:
empty input yields an empty DataFrame, otherwise the four columns are built
over `FUNNEL_STAGES` / `FUNNEL_LABELS`. -/
def generate_funnel_analysis (df : List Event) (time_filter : Option (Int × Int)) :
    List FunnelRow :=
  funnelAnalysisWith FUNNEL_STAGES FUNNEL_LABELS time_filter df

/-- Severity assignment of `generate_bottleneck_analysis`: the source
compares the float `drop_rate` with the literals `0.3` and `0.15`, modelled
as the exact rationals 3/10 and 3/20. -/
def severityOf (drop_rate : ℚ) : String :=
  if 3 / 10 < drop_rate then "High"
  else if 3 / 20 < drop_rate then "Medium"
  else "Low"

/-- The `bottleneck_data` list of `generate_bottleneck_analysis` before
sorting: one entry per `i in range(len(FUNNEL_LABELS) - 1)`, reading
`funnel_df.iloc[i]['Sessions']` and `funnel_df.iloc[i+1]['Sessions']`.
`iloc` raises on an out-of-range index; in this repository the input always
has exactly `FUNNEL_LABELS.length` rows, and the theorems below carry that
hypothesis, so the `getD` defaults are never exercised. -/
def bottleneckRaw (funnel_df : List FunnelRow) : List BottleneckRow :=
  (List.range (FUNNEL_LABELS.length - 1)).map (fun i =>
    let current_sessions := (funnel_df.getD i default).sessions
    let next_sessions := (funnel_df.getD (i + 1) default).sessions
    let drop_rate : ℚ :=
      if 0 < current_sessions then
        ((current_sessions : ℚ) - (next_sessions : ℚ)) / (current_sessions : ℚ)
      else 0
    { transition := FUNNEL_LABELS.getD i "" ++ " → " ++ FUNNEL_LABELS.getD (i + 1) "",
      sessions_lost := (current_sessions : ℤ) - (next_sessions : ℤ),
      drop_rate := drop_rate,
      severity := severityOf drop_rate })

/-- Sort key order of `sort_values('Drop_Rate_Numeric', ascending=False)`. -/
def bottleneckLE (a b : BottleneckRow) : Prop := a.drop_rate ≤ b.drop_rate

instance : DecidableRel bottleneckLE :=
  fun a b => inferInstanceAs (Decidable (a.drop_rate ≤ b.drop_rate))

instance : IsTotal BottleneckRow bottleneckLE :=
  ⟨fun a b => le_total a.drop_rate b.drop_rate⟩

instance : IsTrans BottleneckRow bottleneckLE :=
  ⟨fun _ _ _ h1 h2 => le_trans h1 h2⟩

/-- `generate_bottleneck_analysis(funnel_df)` from data_processor.py.
`DataFrame.sort_values(col, ascending=False)` computes an ascending argsort
of the key column and then reverses the index array (pandas `nargsort`).
The argsort uses numpy's default quicksort, which for arrays shorter than 16
elements is a plain insertion sort and therefore stable; the key column here
always has `len(FUNNEL_LABELS) - 1 = 7` entries.  Any two stable ascending
sorts over the same total preorder agree, so the stable
`List.insertionSort` by `drop_rate`, followed by `reverse`, is exactly the
source's sort.  In particular rows with equal drop rate end up in *reverse*
original order. -/
def generate_bottleneck_analysis (funnel_df : List FunnelRow) : List BottleneckRow :=
  if funnel_df = [] then []
  else (List.insertionSort bottleneckLE (bottleneckRaw funnel_df)).reverse

/-- Helper for pandas `Series.unique()`: distinct values in order of first
appearance, skipping values already seen. -/
def uniqueFirstAux (seen : List String) : List String → List String
  | [] => []
  | x :: xs =>
      if x ∈ seen then uniqueFirstAux seen xs
      else x :: uniqueFirstAux (x :: seen) xs

/-- pandas `Series.unique()`: distinct values in order of first appearance. -/
def uniqueFirst (l : List String) : List String := uniqueFirstAux [] l

/-- `generate_device_analysis(df)` from data_processor.py: one row per
distinct `device` value; events are filtered to the device first, and both
the session total and the purchase-session count are taken inside that
filtered subset. -/
def generate_device_analysis (df : List Event) : List SegmentRow :=
  if df = [] then []
  else
    (uniqueFirst (df.map (fun e => e.device))).map (fun device =>
      let device_df := df.filter (fun e => e.device == device)
      let total_sessions := nunique (device_df.map (fun e => e.session_id))
      let purchase_sessions := nunique ((device_df.filter (fun e =>
          e.page == "payment_page" && e.action == "purchase")).map
        (fun e => e.session_id))
      let conversion_rate : ℚ :=
        if 0 < total_sessions then (purchase_sessions : ℚ) / (total_sessions : ℚ)
        else 0
      { key := device, total_sessions := total_sessions,
        conversions := purchase_sessions, conversion_rate := conversion_rate })

/-- `generate_traffic_analysis(df)` from data_processor.py: identical to the
device analysis with the `traffic_source` column as the partition key. -/
def generate_traffic_analysis (df : List Event) : List SegmentRow :=
  if df = [] then []
  else
    (uniqueFirst (df.map (fun e => e.traffic_source))).map (fun source =>
      let source_df := df.filter (fun e => e.traffic_source == source)
      let total_sessions := nunique (source_df.map (fun e => e.session_id))
      let purchase_sessions := nunique ((source_df.filter (fun e =>
          e.page == "payment_page" && e.action == "purchase")).map
        (fun e => e.session_id))
      let conversion_rate : ℚ :=
        if 0 < total_sessions then (purchase_sessions : ℚ) / (total_sessions : ℚ)
        else 0
      { key := source, total_sessions := total_sessions,
        conversions := purchase_sessions, conversion_rate := conversion_rate })

/-- The spec's `compute_segment_conversion(events, partition_key_fn,
purchase_matcher)` with the purchase matcher fixed to
(payment_page, purchase), restricted to the aggregation both source
analyzers actually perform (claim C10): the common generalization of
`generate_device_analysis` and `generate_traffic_analysis` over the
partition key column. -/
def compute_segment_conversion (partition_key : Event → String) (df : List Event) :
    List SegmentRow :=
  if df = [] then []
  else
    (uniqueFirst (df.map (fun e => partition_key e))).map (fun v =>
      let sub_df := df.filter (fun e => partition_key e == v)
      let total_sessions := nunique (sub_df.map (fun e => e.session_id))
      let purchase_sessions := nunique ((sub_df.filter (fun e =>
          e.page == "payment_page" && e.action == "purchase")).map
        (fun e => e.session_id))
      let conversion_rate : ℚ :=
        if 0 < total_sessions then (purchase_sessions : ℚ) / (total_sessions : ℚ)
        else 0
      { key := v, total_sessions := total_sessions,
        conversions := purchase_sessions, conversion_rate := conversion_rate })

/-- Swap the `device` and `traffic_source` columns of one event. -/
def swapDeviceTraffic (e : Event) : Event :=
  { e with device := e.traffic_source, traffic_source := e.device }

/-- The converted-session count as claim C9 describes it: distinct session
ids among the partition's events whose *session* contains a purchase event
anywhere (the purchase event need not carry the partition value).  This is
the claim-side definition, stated for comparison with the code's count. -/
def claimedConvertedAnywhere (partition_key : Event → String) (v : String)
    (df : List Event) : Nat :=
  nunique (((df.filter (fun e => partition_key e == v)).filter (fun e =>
      df.any (fun e2 => e2.session_id == e.session_id &&
        e2.page == "payment_page" && e2.action == "purchase"))).map
    (fun e => e.session_id))

/-! ### General helper lemmas -/

theorem getD_map_range {α : Type} (f : Nat → α) (d : α) {n i : Nat} (h : i < n) :
    ((List.range n).map f).getD i d = f i := by
  rw [List.getD_eq_getElem?_getD, List.getElem?_map, List.getElem?_range h]
  rfl

theorem getD_map_const {α β : Type} (l : List α) (i : Nat) (c : β) :
    (l.map (fun _ => c)).getD i c = c := by
  rw [List.getD_eq_getElem?_getD, List.getElem?_map]
  cases l[i]? <;> rfl

theorem dedup_length_le_of_subset {α : Type} [DecidableEq α] {l1 l2 : List α}
    (h : l1 ⊆ l2) : l1.dedup.length ≤ l2.dedup.length := by
  rw [← List.card_toFinset, ← List.card_toFinset]
  exact Finset.card_le_card (fun x hx => List.mem_toFinset.2 (h (List.mem_toFinset.1 hx)))

theorem countStage_le_totalSessions (df : List Event) (page action : String) :
    countStage df page action ≤ totalSessions df :=
  dedup_length_le_of_subset
    (List.map_subset _ (fun _ hx => (List.mem_filter.1 hx).1))

theorem totalSessions_eq_zero {df : List Event} : totalSessions df = 0 ↔ df = [] := by
  simp [totalSessions, nunique, List.length_eq_zero, List.dedup_eq_nil]

theorem funnelCounts_nil (stages : List (String × String)) :
    funnelCounts stages [] = stages.map (fun _ => 0) := rfl

/-- Distinct session ids among the events satisfying `p`, as the cardinality
of the set of sessions having at least one `p`-event: the bridge between the
code's `nunique`-of-a-filtered-column and the spec's presence test. -/
theorem nunique_filter_eq_card (l : List Event) (p : Event → Bool) :
    nunique ((l.filter p).map (fun e => e.session_id)) =
      ((l.map (fun e => e.session_id)).toFinset.filter
        (fun s => l.any (fun e => e.session_id == s && p e) = true)).card := by
  rw [nunique, ← List.card_toFinset]
  congr 1
  ext s
  simp only [List.mem_toFinset, List.mem_map, List.mem_filter, Finset.mem_filter,
    List.any_eq_true, Bool.and_eq_true, beq_iff_eq]
  constructor
  · rintro ⟨e, ⟨he, hp⟩, hs⟩
    exact ⟨⟨e, he, hs⟩, e, he, hs, hp⟩
  · rintro ⟨-, e, he, hs, hp⟩
    exact ⟨e, ⟨he, hp⟩, hs⟩

/-! ### Indexing lemmas for the funnel aggregation -/

theorem funnelAnalysisWith_getD (stages : List (String × String)) (labels : List String)
    (time_filter : Option (Int × Int)) (df : List Event) (hdf : df ≠ [])
    {i : Nat} (hi : i < stages.length) :
    (funnelAnalysisWith stages labels time_filter df).getD i default =
      { stage := labels.getD i "",
        sessions := (funnelCounts stages (applyTimeFilter time_filter df)).getD i 0,
        conversion_rate_from_start :=
          (convRates (totalSessions (applyTimeFilter time_filter df))
            (funnelCounts stages (applyTimeFilter time_filter df))).getD i 0,
        drop_rate_to_next :=
          (dropRatesList (funnelCounts stages (applyTimeFilter time_filter df))).getD i
            DropRate.na } := by
  unfold funnelAnalysisWith
  rw [if_neg hdf]
  exact getD_map_range _ _ hi

theorem mem_funnelAnalysisWith {stages : List (String × String)} {labels : List String}
    {time_filter : Option (Int × Int)} {df : List Event} {row : FunnelRow}
    (h : row ∈ funnelAnalysisWith stages labels time_filter df) :
    ∃ i, i < stages.length ∧
      row =
        { stage := labels.getD i "",
          sessions := (funnelCounts stages (applyTimeFilter time_filter df)).getD i 0,
          conversion_rate_from_start :=
            (convRates (totalSessions (applyTimeFilter time_filter df))
              (funnelCounts stages (applyTimeFilter time_filter df))).getD i 0,
          drop_rate_to_next :=
            (dropRatesList (funnelCounts stages (applyTimeFilter time_filter df))).getD i
              DropRate.na } := by
  unfold funnelAnalysisWith at h
  by_cases hdf : df = []
  · rw [if_pos hdf] at h
    exact absurd h (List.not_mem_nil row)
  · rw [if_neg hdf] at h
    obtain ⟨i, hi, hrow⟩ := List.mem_map.1 h
    exact ⟨i, List.mem_range.1 hi, hrow.symm⟩

theorem funnelCounts_getD {stages : List (String × String)} (df : List Event)
    {i : Nat} (hi : i < stages.length) :
    (funnelCounts stages df).getD i 0 =
      countStage df (stages.getD i ("", "")).1 (stages.getD i ("", "")).2 := by
  unfold funnelCounts
  rw [List.getD_eq_getElem?_getD, List.getElem?_map, List.getElem?_eq_getElem hi,
    List.getD_eq_getElem?_getD, List.getElem?_eq_getElem hi]
  rfl

theorem convRates_getD (unique_sessions : Nat) (funnel_counts : List Nat)
    {i : Nat} (hi : i < funnel_counts.length) :
    (convRates unique_sessions funnel_counts).getD i 0 =
      if 0 < unique_sessions then
        ((funnel_counts.getD i 0 : ℚ) / (unique_sessions : ℚ))
      else 0 := by
  unfold convRates
  rw [List.getD_eq_getElem?_getD, List.getElem?_map, List.getElem?_eq_getElem hi,
    List.getD_eq_getElem?_getD, List.getElem?_eq_getElem hi]
  rfl

theorem dropRatesList_getD_zero (funnel_counts : List Nat) :
    (dropRatesList funnel_counts).getD 0 DropRate.na = DropRate.na := rfl

theorem dropRatesList_getD_succ (funnel_counts : List Nat)
    {i : Nat} (hi : i < funnel_counts.length - 1) :
    (dropRatesList funnel_counts).getD (i + 1) DropRate.na =
      (if 0 < funnel_counts.getD i 0 then
        DropRate.rate
          (((funnel_counts.getD i 0 : ℚ) - (funnel_counts.getD (i + 1) 0 : ℚ)) /
            (funnel_counts.getD i 0 : ℚ))
      else DropRate.rate 0) := by
  unfold dropRatesList
  rw [List.getD_cons_succ]
  exact getD_map_range _ _ hi

/-! ### Concrete events for witnesses and counterexamples -/

/-- Build a concrete event (event and user ids do not affect any claim). -/
def ev (sid page action device src : String) (ts : Int) : Event :=
  ⟨"e", sid, "u", ts, page, action, device, src⟩

/-! ### Claim C1 -/

/-- Helper: when the time filter removes every event (but the input was
nonempty, so the early-return guard was not taken), every produced row has
count 0, conversion rate 0 and a drop-rate entry that is the placeholder or
the clamped 0. -/
theorem funnel_rows_zero_of_filtered_empty (stages : List (String × String))
    (labels : List String) (time_filter : Option (Int × Int)) (df : List Event)
    (hfil : applyTimeFilter time_filter df = []) :
    ∀ row ∈ funnelAnalysisWith stages labels time_filter df,
      row.sessions = 0 ∧ row.conversion_rate_from_start = 0 ∧
        (row.drop_rate_to_next = DropRate.na ∨
          row.drop_rate_to_next = DropRate.rate 0) := by
  intro row hrow
  obtain ⟨i, hi, hrow⟩ := mem_funnelAnalysisWith hrow
  subst hrow
  rw [hfil]
  refine ⟨?_, ?_, ?_⟩
  · rw [funnelCounts_nil]
    exact getD_map_const stages i 0
  · have h1 : convRates (totalSessions []) (funnelCounts stages []) =
        (funnelCounts stages []).map (fun _ => (0 : ℚ)) := rfl
    rw [h1]
    exact getD_map_const _ i 0
  · match i with
    | 0 => exact Or.inl rfl
    | j + 1 =>
      by_cases hj : j < (funnelCounts stages []).length - 1
      · right
        rw [dropRatesList_getD_succ _ hj]
        have h0 : (funnelCounts stages []).getD j 0 = 0 := by
          rw [funnelCounts_nil]; exact getD_map_const stages j 0
        rw [h0]
        simp
      · left
        show (dropRatesList (funnelCounts stages [])).getD (j + 1) DropRate.na = DropRate.na
        have hlen : (dropRatesList (funnelCounts stages [])).length ≤ j + 1 := by
          simp only [dropRatesList, List.length_cons, List.length_map, List.length_range]
          exact Nat.succ_le_succ (Nat.le_of_not_lt hj)
        rw [List.getD_eq_getElem?_getD, List.getElem?_eq_none hlen]
        rfl

/-- C1: counterexample.  On the empty event set the code returns an empty
DataFrame (0 rows) after printing a warning, not one zero-count row per
stage: the claimed row count `len(stages) = 8` is not produced. -/
theorem C1_counterexample :
    generate_funnel_analysis [] none = [] ∧ FUNNEL_STAGES.length = 8 :=
  ⟨rfl, rfl⟩

/-- C1 (amended): for every NONEMPTY event set, every stage list and every
label list, the funnel aggregation returns exactly `stages.length` result
rows without error, and when the time filter leaves no events every row has
session count 0, conversion rate 0, and a drop-rate entry that is the
first-row placeholder or the clamped 0.  On the EMPTY event set the code
instead returns an empty result (0 rows), not one zero row per stage. -/
theorem C1_rowcount (stages : List (String × String)) (labels : List String)
    (time_filter : Option (Int × Int)) (df : List Event) (hdf : df ≠ []) :
    (funnelAnalysisWith stages labels time_filter df).length = stages.length ∧
    (applyTimeFilter time_filter df = [] →
      ∀ row ∈ funnelAnalysisWith stages labels time_filter df,
        row.sessions = 0 ∧ row.conversion_rate_from_start = 0 ∧
          (row.drop_rate_to_next = DropRate.na ∨
            row.drop_rate_to_next = DropRate.rate 0)) := by
  constructor
  · unfold funnelAnalysisWith
    rw [if_neg hdf]
    simp
  · exact funnel_rows_zero_of_filtered_empty stages labels time_filter df

/-- C1 witness: the amended theorem applied to a concrete one-event set whose
time window excludes the event. -/
theorem C1_rowcount_witness :
    ([ev "s1" "homepage" "page_view" "desktop" "direct" 0] ≠ ([] : List Event)) ∧
    applyTimeFilter (some (10, 20)) [ev "s1" "homepage" "page_view" "desktop" "direct" 0] = [] ∧
    ∀ row ∈ funnelAnalysisWith FUNNEL_STAGES FUNNEL_LABELS (some (10, 20))
        [ev "s1" "homepage" "page_view" "desktop" "direct" 0],
      row.sessions = 0 ∧ row.conversion_rate_from_start = 0 ∧
        (row.drop_rate_to_next = DropRate.na ∨
          row.drop_rate_to_next = DropRate.rate 0) :=
  ⟨List.cons_ne_nil _ _, rfl,
    (C1_rowcount FUNNEL_STAGES FUNNEL_LABELS (some (10, 20))
      [ev "s1" "homepage" "page_view" "desktop" "direct" 0]
      (List.cons_ne_nil _ _)).2 rfl⟩

/-! ### Lemmas about the drop-rate entries -/

/-- Out-of-range access into the drop-rates list yields the default. -/
theorem dropRatesList_getD_oob (funnel_counts : List Nat) {j : Nat}
    (hj : funnel_counts.length - 1 ≤ j) :
    (dropRatesList funnel_counts).getD (j + 1) DropRate.na = DropRate.na := by
  have hlen : (dropRatesList funnel_counts).length ≤ j + 1 := by
    simp only [dropRatesList, List.length_cons, List.length_map, List.length_range]
    exact Nat.succ_le_succ hj
  rw [List.getD_eq_getElem?_getD, List.getElem?_eq_none hlen]
  rfl

/-- Every numeric entry of the drop-rates list is at most 1. -/
theorem dropRatesList_rate_le_one {funnel_counts : List Nat} {i : Nat} {q : ℚ}
    (hq : (dropRatesList funnel_counts).getD i DropRate.na = DropRate.rate q) :
    q ≤ 1 := by
  match i, hq with
  | 0, hq =>
    rw [dropRatesList_getD_zero] at hq
    exact DropRate.noConfusion hq
  | j + 1, hq =>
    by_cases hj : j < funnel_counts.length - 1
    · rw [dropRatesList_getD_succ _ hj] at hq
      by_cases hc : 0 < funnel_counts.getD j 0
      · rw [if_pos hc] at hq
        injection hq with h3
        rw [← h3, div_le_one (by exact_mod_cast hc)]
        have h0 : (0 : ℚ) ≤ (funnel_counts.getD (j + 1) 0 : ℚ) := Nat.cast_nonneg _
        linarith
      · rw [if_neg hc] at hq
        injection hq with h3
        rw [← h3]
        exact zero_le_one
    · rw [dropRatesList_getD_oob funnel_counts (Nat.le_of_not_lt hj)] at hq
      exact DropRate.noConfusion hq

/-- Indexed form of an antitone `Chain'` on the counts list. -/
theorem chain'_getD_le {l : List Nat} (h : List.Chain' (fun a b => b ≤ a) l)
    {i : Nat} (hi : i < l.length - 1) : l.getD (i + 1) 0 ≤ l.getD i 0 := by
  have h2 := List.chain'_iff_get.1 h i hi
  have e1 : l.getD i 0 = l.get ⟨i, by omega⟩ := by
    rw [List.getD_eq_getElem?_getD, List.getElem?_eq_getElem (by omega : i < l.length)]
    rfl
  have e2 : l.getD (i + 1) 0 = l.get ⟨i + 1, by omega⟩ := by
    rw [List.getD_eq_getElem?_getD,
      List.getElem?_eq_getElem (by omega : i + 1 < l.length)]
    rfl
  rw [e1, e2]
  exact h2

/-- When the counts are non-increasing, every numeric entry of the drop-rates
list is non-negative. -/
theorem dropRatesList_rate_nonneg {funnel_counts : List Nat}
    (hmono : List.Chain' (fun a b => b ≤ a) funnel_counts) {i : Nat} {q : ℚ}
    (hq : (dropRatesList funnel_counts).getD i DropRate.na = DropRate.rate q) :
    0 ≤ q := by
  match i, hq with
  | 0, hq =>
    rw [dropRatesList_getD_zero] at hq
    exact DropRate.noConfusion hq
  | j + 1, hq =>
    by_cases hj : j < funnel_counts.length - 1
    · rw [dropRatesList_getD_succ _ hj] at hq
      by_cases hc : 0 < funnel_counts.getD j 0
      · rw [if_pos hc] at hq
        injection hq with h3
        rw [← h3]
        apply div_nonneg _ (le_of_lt (by exact_mod_cast hc))
        rw [sub_nonneg]
        exact_mod_cast chain'_getD_le hmono hj
      · rw [if_neg hc] at hq
        injection hq with h3
        exact le_of_eq h3
    · rw [dropRatesList_getD_oob funnel_counts (Nat.le_of_not_lt hj)] at hq
      exact DropRate.noConfusion hq

/-! ### Claim C2 -/

/-- Failing input for C2: sessions A and B both hit homepage/page_view, and A
also hits category_page/page_view, so the stage counts are 2,1,0,0,0,0,0,0
and the transition drop rates are 1/2, 1, 0, 0, 0, 0, 0. -/
def dfC2 : List Event :=
  [ev "A" "homepage" "page_view" "desktop" "direct" 0,
   ev "B" "homepage" "page_view" "desktop" "direct" 1,
   ev "A" "category_page" "page_view" "desktop" "direct" 2]

/-- C2: evaluation of the code at the failing input.  The source appends the
placeholder FIRST (`drop_rates.append('N/A')  # No drop-off for first stage`)
and then the transition rates, so under the column named Drop_Rate_to_Next
row 0 carries the placeholder although its drop to the next stage is 1/2
(which instead appears on row 1), and the LAST row carries a numeric rate
although it has no next stage: every numeric entry sits one row below the
stage whose "drop rate to next" it is. -/
theorem C2_shifted_drop_rates :
    ((generate_funnel_analysis dfC2 none).getD 0 default).drop_rate_to_next =
        DropRate.na ∧
    ((generate_funnel_analysis dfC2 none).getD 1 default).drop_rate_to_next =
        DropRate.rate (1 / 2) ∧
    ((generate_funnel_analysis dfC2 none).getD 7 default).drop_rate_to_next =
        DropRate.rate 0 := by
  refine ⟨by decide, ?_, by decide⟩
  have h : ((generate_funnel_analysis dfC2 none).getD 1 default).drop_rate_to_next =
      DropRate.rate ((((2 : Nat) : ℚ) - ((1 : Nat) : ℚ)) / ((2 : Nat) : ℚ)) := rfl
  rw [h]
  norm_num

/-! ### Claim C4 -/

/-- Counterexample input for C4: session A hits only category_page/page_view
while session B hits homepage and category_page, so the stage counts are
non-monotonic (1 then 2) and the first transition's drop rate is
(1 - 2) / 1 = -1. -/
def dfC4 : List Event :=
  [ev "A" "category_page" "page_view" "desktop" "direct" 0,
   ev "B" "homepage" "page_view" "desktop" "direct" 1,
   ev "B" "category_page" "page_view" "desktop" "direct" 2]

/-- C4: counterexample — the aggregation produces the drop rate -1, which is
outside [0,1], so not every rate lies in [0,1] when the per-stage counts are
non-monotonic. -/
theorem C4_counterexample :
    ((generate_funnel_analysis dfC4 none).getD 1 default).drop_rate_to_next =
        DropRate.rate (-1) ∧
    ¬ (0 : ℚ) ≤ -1 := by
  constructor
  · have h : ((generate_funnel_analysis dfC4 none).getD 1 default).drop_rate_to_next =
        DropRate.rate ((((1 : Nat) : ℚ) - ((2 : Nat) : ℚ)) / ((1 : Nat) : ℚ)) := rfl
    rw [h]
    norm_num
  · norm_num

/-- C4 (amended): every conversion_rate_from_start lies in [0,1], and every
numeric drop rate is at most 1; but a drop rate may be NEGATIVE when a later
stage counts more sessions than the one before it (the counterexample
produces -1).  When the per-stage counts are non-increasing, every numeric
drop rate does lie in [0,1]. -/
theorem C4_rates_bounds (stages : List (String × String)) (labels : List String)
    (time_filter : Option (Int × Int)) (df : List Event) :
    (∀ row ∈ funnelAnalysisWith stages labels time_filter df,
      0 ≤ row.conversion_rate_from_start ∧ row.conversion_rate_from_start ≤ 1 ∧
        ∀ q, row.drop_rate_to_next = DropRate.rate q → q ≤ 1) ∧
    (List.Chain' (fun a b => b ≤ a)
        (funnelCounts stages (applyTimeFilter time_filter df)) →
      ∀ row ∈ funnelAnalysisWith stages labels time_filter df,
        ∀ q, row.drop_rate_to_next = DropRate.rate q → 0 ≤ q ∧ q ≤ 1) := by
  have hlen : ∀ (l : List Event),
      (funnelCounts stages l).length = stages.length := fun l => List.length_map _ _
  constructor
  · intro row hrow
    obtain ⟨i, hi, hrw⟩ := mem_funnelAnalysisWith hrow
    subst hrw
    refine ⟨?_, ?_, ?_⟩
    · show (0 : ℚ) ≤ (convRates _ _).getD i 0
      rw [convRates_getD _ _ (by rw [hlen]; exact hi)]
      by_cases hus : 0 < totalSessions (applyTimeFilter time_filter df)
      · rw [if_pos hus]
        exact div_nonneg (Nat.cast_nonneg _) (Nat.cast_nonneg _)
      · rw [if_neg hus]
    · show (convRates _ _).getD i 0 ≤ 1
      rw [convRates_getD _ _ (by rw [hlen]; exact hi)]
      by_cases hus : 0 < totalSessions (applyTimeFilter time_filter df)
      · rw [if_pos hus]
        rw [div_le_one (by exact_mod_cast hus)]
        have hle : (funnelCounts stages (applyTimeFilter time_filter df)).getD i 0 ≤
            totalSessions (applyTimeFilter time_filter df) := by
          rw [funnelCounts_getD _ hi]
          exact countStage_le_totalSessions _ _ _
        exact_mod_cast hle
      · rw [if_neg hus]
        exact zero_le_one
    · intro q hq
      have hq2 : (dropRatesList
          (funnelCounts stages (applyTimeFilter time_filter df))).getD i DropRate.na =
          DropRate.rate q := hq
      exact dropRatesList_rate_le_one hq2
  · intro hchain row hrow
    obtain ⟨i, hi, hrw⟩ := mem_funnelAnalysisWith hrow
    subst hrw
    intro q hq
    have hq2 : (dropRatesList
        (funnelCounts stages (applyTimeFilter time_filter df))).getD i DropRate.na =
        DropRate.rate q := hq
    exact ⟨dropRatesList_rate_nonneg hchain hq2, dropRatesList_rate_le_one hq2⟩

/-- C4 witness: the amended theorem applied to the concrete event set of C2,
whose stage counts 2,1,0,…,0 are non-increasing. -/
theorem C4_rates_bounds_witness :
    List.Chain' (fun a b => b ≤ a)
      (funnelCounts FUNNEL_STAGES (applyTimeFilter none dfC2)) ∧
    (∀ row ∈ funnelAnalysisWith FUNNEL_STAGES FUNNEL_LABELS none dfC2,
      ∀ q, row.drop_rate_to_next = DropRate.rate q → 0 ≤ q ∧ q ≤ 1) := by
  have hcs : funnelCounts FUNNEL_STAGES (applyTimeFilter none dfC2) =
      [2, 1, 0, 0, 0, 0, 0, 0] := by decide
  have hchain : List.Chain' (fun a b => b ≤ a)
      (funnelCounts FUNNEL_STAGES (applyTimeFilter none dfC2)) := by
    rw [hcs]
    repeat constructor
  exact ⟨hchain, (C4_rates_bounds FUNNEL_STAGES FUNNEL_LABELS none dfC2).2 hchain⟩

/-! ### Claim C3 -/

/-- C3: per-stage session counting is a presence test.  For every event set,
time filter and stage index, the stage's `Sessions` value equals the number
of distinct session ids that have AT LEAST ONE event matching the stage's
(page, action) pair — independent of that event's position relative to other
stage matches — and `Conversion_Rate_from_Start` equals that count divided by
the number of distinct session ids in the whole filtered set (0 when that
total is 0). -/
theorem C3_presence_test (stages : List (String × String)) (labels : List String)
    (time_filter : Option (Int × Int)) (df : List Event) (hdf : df ≠ [])
    {i : Nat} (hi : i < stages.length) :
    ((funnelAnalysisWith stages labels time_filter df).getD i default).sessions =
      (((applyTimeFilter time_filter df).map (fun e => e.session_id)).toFinset.filter
        (fun s => (applyTimeFilter time_filter df).any (fun e =>
          e.session_id == s && (e.page == (stages.getD i ("", "")).1 &&
            e.action == (stages.getD i ("", "")).2)) = true)).card ∧
    ((funnelAnalysisWith stages labels time_filter df).getD i
        default).conversion_rate_from_start =
      (if 0 < totalSessions (applyTimeFilter time_filter df) then
        ((((funnelAnalysisWith stages labels time_filter df).getD i default).sessions : ℚ) /
          (totalSessions (applyTimeFilter time_filter df) : ℚ))
      else 0) := by
  have hi2 : i < (funnelCounts stages (applyTimeFilter time_filter df)).length := by
    unfold funnelCounts
    rw [List.length_map]
    exact hi
  rw [funnelAnalysisWith_getD stages labels time_filter df hdf hi]
  constructor
  · show (funnelCounts stages (applyTimeFilter time_filter df)).getD i 0 = _
    rw [funnelCounts_getD _ hi]
    unfold countStage
    rw [nunique_filter_eq_card]
  · show (convRates _ _).getD i 0 = _
    rw [convRates_getD _ _ hi2]

/-- C3 witness: the theorem applied to the concrete event set `dfC2` at the
first funnel stage. -/
theorem C3_presence_test_witness :
    ((funnelAnalysisWith FUNNEL_STAGES FUNNEL_LABELS none dfC2).getD 0 default).sessions =
      ((dfC2.map (fun e => e.session_id)).toFinset.filter
        (fun s => dfC2.any (fun e =>
          e.session_id == s && (e.page == (FUNNEL_STAGES.getD 0 ("", "")).1 &&
            e.action == (FUNNEL_STAGES.getD 0 ("", "")).2)) = true)).card ∧
    ((funnelAnalysisWith FUNNEL_STAGES FUNNEL_LABELS none
        dfC2).getD 0 default).conversion_rate_from_start =
      (if 0 < totalSessions dfC2 then
        ((((funnelAnalysisWith FUNNEL_STAGES FUNNEL_LABELS none
            dfC2).getD 0 default).sessions : ℚ) / (totalSessions dfC2 : ℚ))
      else 0) :=
  C3_presence_test FUNNEL_STAGES FUNNEL_LABELS none dfC2
    (List.cons_ne_nil _ _) (by decide)

/-! ### Claims C5 and C6 -/

/-- An 8-row funnel result with two equal transition drop rates: stage
session counts 4,2,1,1,1,1,1,1 give drop rates 1/2, 1/2, 0, 0, 0, 0, 0
(realizable by four sessions of which two reach the second stage and one
reaches every stage). -/
def fdfC5 : List FunnelRow :=
  [⟨"Homepage Visit", 4, 1, DropRate.na⟩,
   ⟨"Category Page Visit", 2, 1 / 2, DropRate.rate (1 / 2)⟩,
   ⟨"Product Page Visit", 1, 1 / 4, DropRate.rate (1 / 2)⟩,
   ⟨"Add to Cart", 1, 1 / 4, DropRate.rate 0⟩,
   ⟨"Cart View", 1, 1 / 4, DropRate.rate 0⟩,
   ⟨"Checkout", 1, 1 / 4, DropRate.rate 0⟩,
   ⟨"Payment", 1, 1 / 4, DropRate.rate 0⟩,
   ⟨"Purchase", 1, 1 / 4, DropRate.rate 0⟩]

/-- Full evaluation of the bottleneck analysis on `fdfC5`: the two rows with
equal drop rate 1/2 come out with the LATER transition first, and the five
zero-rate rows in reverse original order as well. -/
theorem bottleneck_output_fdfC5 :
    generate_bottleneck_analysis fdfC5 =
      [⟨"Category Page Visit → Product Page Visit", 1, 1 / 2, "High"⟩,
       ⟨"Homepage Visit → Category Page Visit", 2, 1 / 2, "High"⟩,
       ⟨"Payment → Purchase", 0, 0, "Low"⟩,
       ⟨"Checkout → Payment", 0, 0, "Low"⟩,
       ⟨"Cart View → Checkout", 0, 0, "Low"⟩,
       ⟨"Add to Cart → Cart View", 0, 0, "Low"⟩,
       ⟨"Product Page Visit → Add to Cart", 0, 0, "Low"⟩] := by
  norm_num [generate_bottleneck_analysis, bottleneckRaw, bottleneckLE, severityOf,
    FUNNEL_LABELS, fdfC5, List.insertionSort, List.orderedInsert, List.range_succ]
  repeat first
  | constructor
  | rfl

/-- C5: counterexample — on `fdfC5` the two rows with equal drop rate 1/2
appear with the later transition (Category→Product) BEFORE the earlier one
(Homepage→Category): ties are broken in reverse original stage order, not in
original order as a stable descending sort would. -/
theorem C5_counterexample :
    ((generate_bottleneck_analysis fdfC5).getD 0 default).transition =
        "Category Page Visit → Product Page Visit" ∧
    ((generate_bottleneck_analysis fdfC5).getD 1 default).transition =
        "Homepage Visit → Category Page Visit" ∧
    ((generate_bottleneck_analysis fdfC5).getD 0 default).drop_rate =
      ((generate_bottleneck_analysis fdfC5).getD 1 default).drop_rate := by
  rw [bottleneck_output_fdfC5]
  exact ⟨rfl, rfl, rfl⟩

/-- C5 (amended): on the 8-row funnel result the bottleneck analysis returns
exactly 7 rows, one per adjacent stage pair (a permutation of the
per-transition rows), sorted by drop rate in descending order; but rows with
equal drop rate appear in REVERSE original stage order, because pandas
`sort_values(ascending=False)` reverses a stable ascending sort — the
counterexample exhibits the reversal. -/
theorem C5_bottleneck_shape (funnel_df : List FunnelRow)
    (hlen : funnel_df.length = 8) :
    (generate_bottleneck_analysis funnel_df).length = 7 ∧
    (generate_bottleneck_analysis funnel_df).Perm (bottleneckRaw funnel_df) ∧
    (bottleneckRaw funnel_df).length = 7 ∧
    List.Pairwise (fun a b => b.drop_rate ≤ a.drop_rate)
      (generate_bottleneck_analysis funnel_df) := by
  have hne : funnel_df ≠ [] := by
    intro h
    rw [h] at hlen
    exact absurd hlen (by decide)
  have hraw : (bottleneckRaw funnel_df).length = 7 := by
    unfold bottleneckRaw
    rw [List.length_map, List.length_range]
    rfl
  unfold generate_bottleneck_analysis
  rw [if_neg hne]
  refine ⟨?_, ?_, hraw, ?_⟩
  · rw [List.length_reverse,
      (List.perm_insertionSort bottleneckLE (bottleneckRaw funnel_df)).length_eq]
    exact hraw
  · exact (List.reverse_perm _).trans
      (List.perm_insertionSort bottleneckLE (bottleneckRaw funnel_df))
  · rw [List.pairwise_reverse]
    exact List.sorted_insertionSort bottleneckLE (bottleneckRaw funnel_df)

/-- C5 witness: the amended theorem applied to the concrete 8-row funnel
result `fdfC5`. -/
theorem C5_bottleneck_shape_witness :
    fdfC5.length = 8 ∧
    ((generate_bottleneck_analysis fdfC5).length = 7 ∧
      (generate_bottleneck_analysis fdfC5).Perm (bottleneckRaw fdfC5) ∧
      (bottleneckRaw fdfC5).length = 7 ∧
      List.Pairwise (fun a b => b.drop_rate ≤ a.drop_rate)
        (generate_bottleneck_analysis fdfC5)) :=
  ⟨rfl, C5_bottleneck_shape fdfC5 rfl⟩

/-- Every row of the pre-sort bottleneck list carries the severity assigned
to its own drop rate. -/
theorem bottleneckRaw_severity {funnel_df : List FunnelRow} {row : BottleneckRow}
    (h : row ∈ bottleneckRaw funnel_df) : row.severity = severityOf row.drop_rate := by
  unfold bottleneckRaw at h
  obtain ⟨i, _, hrow⟩ := List.mem_map.1 h
  subst hrow
  rfl

/-- Membership in the sorted bottleneck output implies membership in the
pre-sort transition list. -/
theorem mem_generate_bottleneck {funnel_df : List FunnelRow} {row : BottleneckRow}
    (h : row ∈ generate_bottleneck_analysis funnel_df) :
    row ∈ bottleneckRaw funnel_df := by
  unfold generate_bottleneck_analysis at h
  by_cases hdf : funnel_df = []
  · rw [if_pos hdf] at h
    exact absurd h (List.not_mem_nil row)
  · rw [if_neg hdf] at h
    rw [List.mem_reverse] at h
    exact (List.perm_insertionSort bottleneckLE _).mem_iff.1 h

/-- C6: severity thresholds with strict boundaries.  Every row of the
bottleneck analysis is classified High exactly when its drop rate exceeds
3/10, Medium exactly when it exceeds 3/20 but is at most 3/10, and Low
exactly when it is at most 3/20 — so a drop rate of exactly 0.30 is Medium
and a drop rate of exactly 0.15 is Low. -/
theorem C6_severity (funnel_df : List FunnelRow) (row : BottleneckRow)
    (h : row ∈ generate_bottleneck_analysis funnel_df) :
    (row.severity = "High" ↔ 3 / 10 < row.drop_rate) ∧
    (row.severity = "Medium" ↔ (3 / 20 < row.drop_rate ∧ row.drop_rate ≤ 3 / 10)) ∧
    (row.severity = "Low" ↔ row.drop_rate ≤ 3 / 20) := by
  have hs := bottleneckRaw_severity (mem_generate_bottleneck h)
  rw [hs]
  unfold severityOf
  by_cases h1 : 3 / 10 < row.drop_rate
  · rw [if_pos h1]
    refine ⟨⟨fun _ => h1, fun _ => rfl⟩, ⟨?_, ?_⟩, ⟨?_, ?_⟩⟩
    · intro hM
      exact absurd hM (by decide)
    · rintro ⟨-, h2⟩
      exact absurd h1 (not_lt.2 h2)
    · intro hL
      exact absurd hL (by decide)
    · intro h2
      exact absurd h1 (not_lt.2 (le_trans h2 (by norm_num)))
  · rw [if_neg h1]
    by_cases h2 : 3 / 20 < row.drop_rate
    · rw [if_pos h2]
      refine ⟨⟨?_, ?_⟩, ⟨fun _ => ⟨h2, not_lt.1 h1⟩, fun _ => rfl⟩, ⟨?_, ?_⟩⟩
      · intro hH
        exact absurd hH (by decide)
      · intro h3
        exact absurd h3 h1
      · intro hL
        exact absurd hL (by decide)
      · intro h3
        exact absurd h2 (not_lt.2 h3)
    · rw [if_neg h2]
      refine ⟨⟨?_, ?_⟩, ⟨?_, ?_⟩, ⟨fun _ => not_lt.1 h2, fun _ => rfl⟩⟩
      · intro hH
        exact absurd hH (by decide)
      · intro h3
        exact absurd h3 h1
      · intro hM
        exact absurd hM (by decide)
      · rintro ⟨h3, -⟩
        exact absurd h3 h2

/-- C6 witness: the theorem applied to the first row of the evaluated
bottleneck output on `fdfC5`, whose drop rate 1/2 is classified High. -/
theorem C6_severity_witness :
    ((⟨"Category Page Visit → Product Page Visit", 1, 1 / 2, "High"⟩ : BottleneckRow) ∈
      generate_bottleneck_analysis fdfC5) ∧
    (((⟨"Category Page Visit → Product Page Visit", 1, 1 / 2, "High"⟩ :
        BottleneckRow).severity = "High" ↔
      3 / 10 < (⟨"Category Page Visit → Product Page Visit", 1, 1 / 2, "High"⟩ :
        BottleneckRow).drop_rate) ∧
    ((⟨"Category Page Visit → Product Page Visit", 1, 1 / 2, "High"⟩ :
        BottleneckRow).severity = "Medium" ↔
      (3 / 20 < (⟨"Category Page Visit → Product Page Visit", 1, 1 / 2, "High"⟩ :
          BottleneckRow).drop_rate ∧
        (⟨"Category Page Visit → Product Page Visit", 1, 1 / 2, "High"⟩ :
          BottleneckRow).drop_rate ≤ 3 / 10)) ∧
    ((⟨"Category Page Visit → Product Page Visit", 1, 1 / 2, "High"⟩ :
        BottleneckRow).severity = "Low" ↔
      (⟨"Category Page Visit → Product Page Visit", 1, 1 / 2, "High"⟩ :
        BottleneckRow).drop_rate ≤ 3 / 20)) :=
  have hmem : (⟨"Category Page Visit → Product Page Visit", 1, 1 / 2, "High"⟩ :
      BottleneckRow) ∈ generate_bottleneck_analysis fdfC5 := by
    rw [bottleneck_output_fdfC5]
    exact List.mem_cons_self _ _
  ⟨hmem, C6_severity fdfC5 _ hmem⟩

/-! ### Claim C7 -/

/-- Boundary event for C7: its timestamp equals the window end. -/
def evC7 : Event := ev "s1" "payment_page" "purchase" "desktop" "direct" 5

/-- C7: counterexample — an event whose timestamp equals the window end is
kept by the filter and counted by the aggregation (the Purchase stage counts
its session), though the claimed half-open window [start, end) would exclude
it. -/
theorem C7_counterexample :
    applyTimeFilter (some (0, 5)) [evC7] = [evC7] ∧
    ¬ evC7.timestamp < 5 ∧
    ((generate_funnel_analysis [evC7] (some (0, 5))).getD 7 default).sessions = 1 := by
  refine ⟨by decide, by decide, by decide⟩

/-- C7 (amended): with a supplied time window (start, end), an event is kept
for aggregation if and only if start ≤ timestamp AND timestamp ≤ end — the
CLOSED interval [start, end]; a timestamp equal to end is included, not
excluded. -/
theorem C7_time_window (s t : Int) (df : List Event) (e : Event) :
    e ∈ applyTimeFilter (some (s, t)) df ↔
      e ∈ df ∧ s ≤ e.timestamp ∧ e.timestamp ≤ t := by
  unfold applyTimeFilter
  simp [List.mem_filter]

/-- C7 witness: the amended characterization applied at the boundary
event. -/
theorem C7_time_window_witness :
    evC7 ∈ applyTimeFilter (some (0, 5)) [evC7] ↔
      evC7 ∈ [evC7] ∧ (0 : Int) ≤ evC7.timestamp ∧ evC7.timestamp ≤ 5 :=
  C7_time_window 0 5 [evC7] evC7

/-! ### Claim C8 -/

/-- Fields of a device-analysis row, read off from its membership: the totals
come from the device-filtered subset and the rate is the clamped quotient. -/
theorem mem_generate_device_analysis {df : List Event} {row : SegmentRow}
    (h : row ∈ generate_device_analysis df) :
    row.total_sessions =
      nunique ((df.filter (fun e => e.device == row.key)).map
        (fun e => e.session_id)) ∧
    row.conversions =
      nunique (((df.filter (fun e => e.device == row.key)).filter (fun e =>
        e.page == "payment_page" && e.action == "purchase")).map
        (fun e => e.session_id)) ∧
    row.conversion_rate =
      (if 0 < row.total_sessions then
        ((row.conversions : ℚ) / (row.total_sessions : ℚ)) else 0) := by
  unfold generate_device_analysis at h
  by_cases hdf : df = []
  · rw [if_pos hdf] at h
    exact absurd h (List.not_mem_nil row)
  · rw [if_neg hdf] at h
    obtain ⟨v, hv, hrow⟩ := List.mem_map.1 h
    subst hrow
    exact ⟨rfl, rfl, rfl⟩

/-- Fields of a traffic-analysis row, read off from its membership. -/
theorem mem_generate_traffic_analysis {df : List Event} {row : SegmentRow}
    (h : row ∈ generate_traffic_analysis df) :
    row.total_sessions =
      nunique ((df.filter (fun e => e.traffic_source == row.key)).map
        (fun e => e.session_id)) ∧
    row.conversions =
      nunique (((df.filter (fun e => e.traffic_source == row.key)).filter (fun e =>
        e.page == "payment_page" && e.action == "purchase")).map
        (fun e => e.session_id)) ∧
    row.conversion_rate =
      (if 0 < row.total_sessions then
        ((row.conversions : ℚ) / (row.total_sessions : ℚ)) else 0) := by
  unfold generate_traffic_analysis at h
  by_cases hdf : df = []
  · rw [if_pos hdf] at h
    exact absurd h (List.not_mem_nil row)
  · rw [if_neg hdf] at h
    obtain ⟨v, hv, hrow⟩ := List.mem_map.1 h
    subst hrow
    exact ⟨rfl, rfl, rfl⟩

/-- An 8-row funnel result whose counts are all 0, for the C8 witness. -/
def fdfC8 : List FunnelRow :=
  [⟨"Homepage Visit", 0, 0, DropRate.na⟩,
   ⟨"Category Page Visit", 0, 0, DropRate.rate 0⟩,
   ⟨"Product Page Visit", 0, 0, DropRate.rate 0⟩,
   ⟨"Add to Cart", 0, 0, DropRate.rate 0⟩,
   ⟨"Cart View", 0, 0, DropRate.rate 0⟩,
   ⟨"Checkout", 0, 0, DropRate.rate 0⟩,
   ⟨"Payment", 0, 0, DropRate.rate 0⟩,
   ⟨"Purchase", 0, 0, DropRate.rate 0⟩]

/-- C8: zero denominators never fault and always clamp the rate to exactly 0:
(1) when the filtered event set has no sessions, every funnel conversion rate
is 0 and every drop entry is the placeholder or 0; (2) a funnel stage with
count 0 gets drop rate exactly 0; (3) a bottleneck transition whose current
stage has 0 sessions gets drop rate exactly 0; (4)-(5) every segment row's
rate is the clamped quotient, exactly 0 whenever its session total is 0. -/
theorem C8_zero_denominators :
    (∀ (stages : List (String × String)) (labels : List String)
        (time_filter : Option (Int × Int)) (df : List Event),
      totalSessions (applyTimeFilter time_filter df) = 0 →
        ∀ row ∈ funnelAnalysisWith stages labels time_filter df,
          row.conversion_rate_from_start = 0 ∧
            (row.drop_rate_to_next = DropRate.na ∨
              row.drop_rate_to_next = DropRate.rate 0)) ∧
    (∀ (funnel_counts : List Nat) (i : Nat), i < funnel_counts.length - 1 →
      funnel_counts.getD i 0 = 0 →
        (dropRatesList funnel_counts).getD (i + 1) DropRate.na = DropRate.rate 0) ∧
    (∀ (funnel_df : List FunnelRow) (i : Nat), i < 7 →
      (funnel_df.getD i default).sessions = 0 →
        ((bottleneckRaw funnel_df).getD i default).drop_rate = 0) ∧
    (∀ (df : List Event), ∀ row ∈ generate_device_analysis df,
      row.conversion_rate =
        (if 0 < row.total_sessions then
          ((row.conversions : ℚ) / (row.total_sessions : ℚ)) else 0)) ∧
    (∀ (df : List Event), ∀ row ∈ generate_traffic_analysis df,
      row.conversion_rate =
        (if 0 < row.total_sessions then
          ((row.conversions : ℚ) / (row.total_sessions : ℚ)) else 0)) := by
  refine ⟨?_, ?_, ?_, ?_, ?_⟩
  · intro stages labels time_filter df htot row hrow
    exact (funnel_rows_zero_of_filtered_empty stages labels time_filter df
      (totalSessions_eq_zero.1 htot) row hrow).2
  · intro funnel_counts i hi hzero
    rw [dropRatesList_getD_succ _ hi, hzero]
    simp
  · intro funnel_df i hi hsess
    have h1 : ((bottleneckRaw funnel_df).getD i default).drop_rate =
        (if 0 < (funnel_df.getD i default).sessions then
          (((funnel_df.getD i default).sessions : ℚ) -
            ((funnel_df.getD (i + 1) default).sessions : ℚ)) /
            ((funnel_df.getD i default).sessions : ℚ)
        else 0) := by
      unfold bottleneckRaw
      rw [getD_map_range _ _ (show i < FUNNEL_LABELS.length - 1 from hi)]
    rw [h1, hsess]
    simp
  · intro df row hrow
    exact (mem_generate_device_analysis hrow).2.2
  · intro df row hrow
    exact (mem_generate_traffic_analysis hrow).2.2

/-- C8 witness: each clamping clause applied at a concrete zero-denominator
input: a time window excluding the single event, a counts list starting with
0, an all-zero 8-row funnel result, and the C2 event set for the segment
clauses. -/
theorem C8_zero_denominators_witness :
    totalSessions (applyTimeFilter (some (10, 20))
      [ev "s1" "homepage" "page_view" "desktop" "direct" 0]) = 0 ∧
    (∀ row ∈ funnelAnalysisWith FUNNEL_STAGES FUNNEL_LABELS (some (10, 20))
        [ev "s1" "homepage" "page_view" "desktop" "direct" 0],
      row.conversion_rate_from_start = 0 ∧
        (row.drop_rate_to_next = DropRate.na ∨
          row.drop_rate_to_next = DropRate.rate 0)) ∧
    ([0, 5].getD 0 0 = 0 ∧
      (dropRatesList [0, 5]).getD 1 DropRate.na = DropRate.rate 0) ∧
    ((fdfC8.getD 0 default).sessions = 0 ∧
      ((bottleneckRaw fdfC8).getD 0 default).drop_rate = 0) ∧
    (∀ row ∈ generate_device_analysis dfC2,
      row.conversion_rate =
        (if 0 < row.total_sessions then
          ((row.conversions : ℚ) / (row.total_sessions : ℚ)) else 0)) :=
  ⟨by decide,
   C8_zero_denominators.1 FUNNEL_STAGES FUNNEL_LABELS (some (10, 20))
     [ev "s1" "homepage" "page_view" "desktop" "direct" 0] (by decide),
   ⟨by decide, C8_zero_denominators.2.1 [0, 5] 0 (by decide) (by decide)⟩,
   ⟨by decide, C8_zero_denominators.2.2.1 fdfC8 0 (by decide) (by decide)⟩,
   C8_zero_denominators.2.2.2.1 dfC2⟩

/-! ### Claim C9 -/

/-- Counterexample input for C9: one session browses on mobile and purchases
on desktop. -/
def dfC9 : List Event :=
  [ev "s" "homepage" "page_view" "mobile" "direct" 0,
   ev "s" "payment_page" "purchase" "desktop" "direct" 1]

/-- C9: counterexample — the mobile row reports 0 conversions because the
source matches the purchase INSIDE the device-filtered subset, while the
mobile-attributed session does contain a purchase event (under the claimed
anywhere-in-session reading the count would be 1). -/
theorem C9_counterexample :
    ((generate_device_analysis dfC9).getD 0 default).key = "mobile" ∧
    ((generate_device_analysis dfC9).getD 0 default).conversions = 0 ∧
    claimedConvertedAnywhere (fun e => e.device) "mobile" dfC9 = 1 := by
  refine ⟨by decide, by decide, by decide⟩

/-- C9 (amended): in both segment analyzers, converted_sessions for a
partition counts the distinct session ids of events that carry the partition
value AND are themselves purchase events (page=payment_page,
action=purchase): the matching purchase event must itself carry the
partition value, so a purchase recorded under a different partition value
does not convert the session for this partition. -/
theorem C9_converted_within_partition (df : List Event) :
    (∀ row ∈ generate_device_analysis df,
      row.conversions =
        ((df.map (fun e => e.session_id)).toFinset.filter
          (fun s => df.any (fun e => e.session_id == s &&
            (e.page == "payment_page" && e.action == "purchase" &&
              e.device == row.key)) = true)).card) ∧
    (∀ row ∈ generate_traffic_analysis df,
      row.conversions =
        ((df.map (fun e => e.session_id)).toFinset.filter
          (fun s => df.any (fun e => e.session_id == s &&
            (e.page == "payment_page" && e.action == "purchase" &&
              e.traffic_source == row.key)) = true)).card) := by
  constructor
  · intro row hrow
    rw [(mem_generate_device_analysis hrow).2.1, List.filter_filter,
      nunique_filter_eq_card]
  · intro row hrow
    rw [(mem_generate_traffic_analysis hrow).2.1, List.filter_filter,
      nunique_filter_eq_card]

/-- Evaluation of the device analysis on the C9 event set: the mobile row
does not convert, the desktop row does. -/
theorem device_output_dfC9 :
    generate_device_analysis dfC9 =
      [⟨"mobile", 1, 0, 0⟩, ⟨"desktop", 1, 1, 1⟩] := by
  have h : generate_device_analysis dfC9 =
      [⟨"mobile", 1, 0,
         (if 0 < (1 : Nat) then (((0 : Nat) : ℚ) / ((1 : Nat) : ℚ)) else 0)⟩,
       ⟨"desktop", 1, 1,
         (if 0 < (1 : Nat) then (((1 : Nat) : ℚ) / ((1 : Nat) : ℚ)) else 0)⟩] := rfl
  rw [h]
  norm_num

/-- C9 witness: the amended theorem applied to the mobile row of the
evaluated device analysis on the C9 event set. -/
theorem C9_converted_within_partition_witness :
    ((⟨"mobile", 1, 0, 0⟩ : SegmentRow) ∈ generate_device_analysis dfC9) ∧
    (⟨"mobile", 1, 0, 0⟩ : SegmentRow).conversions =
      ((dfC9.map (fun e => e.session_id)).toFinset.filter
        (fun s => dfC9.any (fun e => e.session_id == s &&
          (e.page == "payment_page" && e.action == "purchase" &&
            e.device == (⟨"mobile", 1, 0, 0⟩ : SegmentRow).key)) = true)).card :=
  have hmem : (⟨"mobile", 1, 0, 0⟩ : SegmentRow) ∈ generate_device_analysis dfC9 := by
    rw [device_output_dfC9]
    exact List.mem_cons_self _ _
  ⟨hmem, (C9_converted_within_partition dfC9).1 _ hmem⟩

/-! ### Claim C10 -/

/-- Reindexing a segment aggregation along an event transformation that
preserves session id, page and action: partitioning the transformed events
by `key` is partitioning the original events by `key` after the
transformation. -/
theorem compute_segment_conversion_map (key : Event → String) (g : Event → Event)
    (hsid : ∀ e, (g e).session_id = e.session_id)
    (hpage : ∀ e, (g e).page = e.page)
    (hact : ∀ e, (g e).action = e.action)
    (df : List Event) :
    compute_segment_conversion key (df.map g) =
      compute_segment_conversion (fun e => key (g e)) df := by
  unfold compute_segment_conversion
  by_cases hdf : df = []
  · subst hdf
    rfl
  · have hdg : df.map g ≠ [] := fun h => hdf (List.map_eq_nil_iff.1 h)
    rw [if_neg hdf, if_neg hdg, List.map_map]
    have hkey : df.map ((fun e => key e) ∘ g) = df.map (fun e => key (g e)) := rfl
    rw [hkey]
    apply List.map_congr_left
    intro v hv
    have hsub : (df.map g).filter (fun e => key e == v) =
        (df.filter (fun e => key (g e) == v)).map g := by
      rw [List.filter_map]
      rfl
    have hsid2 : ((df.filter (fun e => key (g e) == v)).map g).map
        (fun e => e.session_id) =
        (df.filter (fun e => key (g e) == v)).map (fun e => e.session_id) := by
      rw [List.map_map]
      exact List.map_congr_left (fun e _ => hsid e)
    have hpurch : ((df.filter (fun e => key (g e) == v)).map g).filter
        (fun e => e.page == "payment_page" && e.action == "purchase") =
        ((df.filter (fun e => key (g e) == v)).filter
          (fun e => e.page == "payment_page" && e.action == "purchase")).map g := by
      rw [List.filter_map]
      apply congrArg (List.map g)
      apply List.filter_congr
      intro e _
      show ((g e).page == "payment_page" && (g e).action == "purchase") = _
      rw [hpage, hact]
    have hps : (((df.filter (fun e => key (g e) == v)).filter
        (fun e => e.page == "payment_page" && e.action == "purchase")).map g).map
        (fun e => e.session_id) =
        ((df.filter (fun e => key (g e) == v)).filter
          (fun e => e.page == "payment_page" && e.action == "purchase")).map
          (fun e => e.session_id) := by
      rw [List.map_map]
      exact List.map_congr_left (fun e _ => hsid e)
    simp only [hsub, hpurch, hsid2, hps]

/-- C10: the two analyzers are the same aggregation instantiated at different
partition columns — each equals `compute_segment_conversion` at its column —
and consequently swapping the `device` and `traffic_source` fields of every
event turns the device analysis of the swapped events into exactly the
traffic analysis of the original events (keys, session totals, conversions
and rates all agree, row for row). -/
theorem C10_same_aggregation :
    (∀ df, generate_device_analysis df =
      compute_segment_conversion (fun e => e.device) df) ∧
    (∀ df, generate_traffic_analysis df =
      compute_segment_conversion (fun e => e.traffic_source) df) ∧
    (∀ df, generate_device_analysis (df.map swapDeviceTraffic) =
      generate_traffic_analysis df) := by
  refine ⟨fun df => rfl, fun df => rfl, fun df => ?_⟩
  have h1 : generate_device_analysis (df.map swapDeviceTraffic) =
      compute_segment_conversion (fun e => e.device) (df.map swapDeviceTraffic) := rfl
  have h2 : generate_traffic_analysis df =
      compute_segment_conversion (fun e => e.traffic_source) df := rfl
  rw [h1, h2, compute_segment_conversion_map (fun e => e.device) swapDeviceTraffic
    (fun e => rfl) (fun e => rfl) (fun e => rfl) df]
  exact congrArg (fun k => compute_segment_conversion k df) (funext fun e => rfl)
